import Mathlib

/-!
Verification of `file_yeet`'s shared library (src/shared/src/lib.rs) against
its specification.  The library has two parts: an `Address` value type (an IP
address plus a port) with `Display` and `ToSocketAddrs` implementations, and
`read_stream`, a retry/classification loop over a non-blocking TCP read.

The embedding models the sequence of outcomes that successive calls to the
underlying `stream.read(buf)` would produce as a `List ReadOutcome`;
`read_stream` consumes that list exactly as the source's loop consumes
successive reads.
-/

namespace FileYeet

/-- Error kinds distinguished by the source: `read_stream` matches
`std::io::ErrorKind::WouldBlock` against every other kind, so the embedding
keeps `wouldBlock` and collapses all remaining kinds into `other` with a
numeric code. -/
inductive ErrorKind where
  | wouldBlock
  | other (code : Nat)
deriving DecidableEq, Repr

/-- A `std::io::Error`: its kind together with its diagnostic detail. -/
structure IoError where
  kind : ErrorKind
  detail : String
deriving DecidableEq, Repr

/-- One outcome of an underlying `stream.read(buf)` call: `Ok(size)` or
`Err(e)`. -/
inductive ReadOutcome where
  | ok (size : Nat)
  | err (e : IoError)
deriving DecidableEq, Repr

/-- `ReadStreamError` from src/shared/src/lib.rs. -/
inductive ReadStreamError where
  | connectionClosed
  | ioError (e : IoError)
deriving DecidableEq, Repr

/-- `read_stream` from src/shared/src/lib.rs, run against the list of outcomes
the underlying reads produce.  `none` means the supplied outcome sequence was
exhausted while the loop was still retrying (modelling divergence on unbounded
would-block); otherwise the result is returned together with the number of
underlying reads the loop performed.  The source's
`NonZeroUsize::try_from(size)` succeeds exactly when `size` is nonzero. -/
def read_stream : List ReadOutcome → Option (Except ReadStreamError Nat × Nat)
  | [] => none
  | .ok size :: _ =>
    match size with
    | 0 => some (Except.error ReadStreamError.connectionClosed, 1)
    | n + 1 => some (Except.ok (n + 1), 1)
  | .err e :: rest =>
    match e.kind with
    | .wouldBlock => (read_stream rest).map (fun p => (p.1, p.2 + 1))
    | .other _ => some (Except.error (ReadStreamError.ioError e), 1)

/-- Whether an outcome is the one the loop absorbs by retrying: a failed read
whose kind is `WouldBlock`. -/
def ReadOutcome.isWouldBlock : ReadOutcome → Bool
  | .ok _ => false
  | .err e =>
    match e.kind with
    | .wouldBlock => true
    | .other _ => false

/-- The classification the loop body applies to a single (non-would-block)
outcome: `Ok(0)` becomes `ConnectionClosed`, `Ok(n+1)` is returned as success,
and a failed read becomes `IoError` wrapping the error. -/
def classifyOutcome : ReadOutcome → Except ReadStreamError Nat
  | .ok 0 => Except.error ReadStreamError.connectionClosed
  | .ok (n + 1) => Except.ok (n + 1)
  | .err e => Except.error (ReadStreamError.ioError e)

/-- The four octets of an `std::net::Ipv4Addr` (each a `u8`). -/
structure Ipv4Addr where
  o0 : Nat
  o1 : Nat
  o2 : Nat
  o3 : Nat
deriving DecidableEq, Repr

/-- The eight 16-bit segments of an `std::net::Ipv6Addr` (each a `u16`). -/
structure Ipv6Addr where
  s0 : Nat
  s1 : Nat
  s2 : Nat
  s3 : Nat
  s4 : Nat
  s5 : Nat
  s6 : Nat
  s7 : Nat
deriving DecidableEq, Repr

/-- `std::net::IpAddr`: a two-variant tagged union over the IP versions. -/
inductive IpAddr where
  | v4 (addr : Ipv4Addr)
  | v6 (addr : Ipv6Addr)
deriving DecidableEq, Repr

/-- `Address` from src/shared/src/lib.rs: an IP address and a port. -/
structure Address where
  ip : IpAddr
  port : Nat
deriving DecidableEq, Repr

/-- `std::net::SocketAddr`: a v4 socket address is an IP and port; a v6 socket
address additionally carries flowinfo and scope id. -/
inductive SocketAddr where
  | v4 (ip : Ipv4Addr) (port : Nat)
  | v6 (ip : Ipv6Addr) (port : Nat) (flowinfo : Nat) (scopeId : Nat)
deriving DecidableEq, Repr

/-- The IP address held by a socket address. -/
def SocketAddr.ipOf : SocketAddr → IpAddr
  | .v4 ip _ => IpAddr.v4 ip
  | .v6 ip _ _ _ => IpAddr.v6 ip

/-- The port held by a socket address. -/
def SocketAddr.portOf : SocketAddr → Nat
  | .v4 _ port => port
  | .v6 _ port _ _ => port

/-- The `ToSocketAddrs` implementation for `Address` from
src/shared/src/lib.rs: it matches on the IP version and calls
`(ip, port).to_socket_addrs()`.  For a concrete `Ipv4Addr` the standard
library returns `Ok` of a one-element iterator over
`SocketAddr::V4(SocketAddrV4::new(ip, port))`; for a concrete `Ipv6Addr` it
returns `Ok` of a one-element iterator over
`SocketAddr::V6(SocketAddrV6::new(ip, port, 0, 0))`.  The iterator type
`std::option::IntoIter<SocketAddr>` is modelled as `Option SocketAddr`. -/
def to_socket_addrs (a : Address) : Except IoError (Option SocketAddr) :=
  match a.ip with
  | .v4 ip => Except.ok (some (SocketAddr.v4 ip a.port))
  | .v6 ip => Except.ok (some (SocketAddr.v6 ip a.port 0 0))

/-- Decimal digits of `n`, as Rust's `Display` for integers prints them. -/
def decChars (n : Nat) : List Char := Nat.toDigits 10 n

/-- Lowercase hexadecimal digits of `n`, as Rust's `{:x}` prints them. -/
def hexChars (n : Nat) : List Char := Nat.toDigits 16 n

/-- `Display` for `std::net::Ipv4Addr`: the four octets in decimal, separated
by dots. -/
def ipv4Chars (ip : Ipv4Addr) : List Char :=
  decChars ip.o0 ++ '.' :: decChars ip.o1 ++ '.' :: decChars ip.o2
    ++ '.' :: decChars ip.o3

/-- The eight segments of an `Ipv6Addr`, in order. -/
def Ipv6Addr.segments (ip : Ipv6Addr) : List Nat :=
  [ip.s0, ip.s1, ip.s2, ip.s3, ip.s4, ip.s5, ip.s6, ip.s7]

/-- A run of zero segments, as in the standard library's `Ipv6Addr`
formatting code. -/
structure Span where
  start : Nat
  len : Nat
deriving DecidableEq, Repr

/-- One step of the standard library's scan for the longest run of zero
segments, folding over `(index, segment)` pairs with state
`(longest, current)`. -/
def zeroRunStep (acc : Span × Span) (iseg : Nat × Nat) : Span × Span :=
  let longest := acc.1
  let current := acc.2
  if iseg.2 = 0 then
    let current :=
      if current.len = 0 then { start := iseg.1, len := 1 }
      else { current with len := current.len + 1 }
    let longest := if current.len > longest.len then current else longest
    (longest, current)
  else
    (longest, { start := 0, len := 0 })

/-- The longest (earliest, on ties) run of zero segments, as computed by the
standard library's `Ipv6Addr` formatting code. -/
def findZeroRun (segs : List Nat) : Span :=
  (segs.enum.foldl zeroRunStep ({ start := 0, len := 0 }, { start := 0, len := 0 })).1

/-- The standard library's `fmt_subslice`: segments in lowercase hex,
separated by single colons. -/
def fmtSubslice : List Nat → List Char
  | [] => []
  | [s] => hexChars s
  | s :: t :: rest => hexChars s ++ ':' :: fmtSubslice (t :: rest)

/-- `Display` for `std::net::Ipv6Addr` (the default-options path): `::` for
the unspecified address, `::1` for loopback, `::ffff:a.b.c.d` for an
IPv4-mapped address, otherwise the segments in hex with the longest zero run
(when longer than one segment) compressed to `::`. -/
def ipv6Chars (ip : Ipv6Addr) : List Char :=
  if ip = ⟨0, 0, 0, 0, 0, 0, 0, 0⟩ then [':', ':']
  else if ip = ⟨0, 0, 0, 0, 0, 0, 0, 1⟩ then [':', ':', '1']
  else if ip.s0 = 0 ∧ ip.s1 = 0 ∧ ip.s2 = 0 ∧ ip.s3 = 0 ∧ ip.s4 = 0 ∧ ip.s5 = 65535 then
    ':' :: ':' :: 'f' :: 'f' :: 'f' :: 'f' :: ':'
      :: ipv4Chars ⟨ip.s6 / 256, ip.s6 % 256, ip.s7 / 256, ip.s7 % 256⟩
  else
    let segs := ip.segments
    let zeroes := findZeroRun segs
    if zeroes.len > 1 then
      fmtSubslice (segs.take zeroes.start) ++ ':' :: ':'
        :: fmtSubslice (segs.drop (zeroes.start + zeroes.len))
    else
      fmtSubslice segs

/-- `Display` for `std::net::IpAddr`: delegates to the held address. -/
def ipChars : IpAddr → List Char
  | .v4 ip => ipv4Chars ip
  | .v6 ip => ipv6Chars ip

/-- The `Display` implementation for `Address` from src/shared/src/lib.rs:
`write!(f, "{ip}:{port}")`. -/
def addressChars (a : Address) : List Char :=
  ipChars a.ip ++ ':' :: decChars a.port

/-- The rendered `Display` string of an `Address`. -/
def displayAddress (a : Address) : String :=
  String.mk (addressChars a)

/-- The rendered `Display` string of an `IpAddr` alone. -/
def displayIp (ip : IpAddr) : String :=
  String.mk (ipChars ip)

/-- A would-block outcome is an `err` whose kind is `wouldBlock`. -/
theorem isWouldBlock_iff (x : ReadOutcome) :
    x.isWouldBlock = true ↔ ∃ e, x = ReadOutcome.err e ∧ e.kind = ErrorKind.wouldBlock := by
  cases x with
  | ok n => simp [ReadOutcome.isWouldBlock]
  | err e =>
    cases he : e.kind with
    | wouldBlock => simp [ReadOutcome.isWouldBlock, he]
    | other c => simp [ReadOutcome.isWouldBlock, he]

/-- A prefix of would-block outcomes is skipped: the loop keeps retrying and
only the read count grows. -/
theorem read_stream_skip (pre l : List ReadOutcome)
    (h : ∀ x ∈ pre, x.isWouldBlock = true) :
    read_stream (pre ++ l) = (read_stream l).map (fun p => (p.1, p.2 + pre.length)) := by
  induction pre with
  | nil =>
    show read_stream l = _
    cases read_stream l <;> rfl
  | cons x pre ih =>
    have hx := h x (List.mem_cons_self x pre)
    rcases (isWouldBlock_iff x).mp hx with ⟨e, hxe, he⟩
    subst hxe
    have hrest : ∀ y ∈ pre, y.isWouldBlock = true :=
      fun y hy => h y (List.mem_cons_of_mem _ hy)
    show read_stream (ReadOutcome.err e :: (pre ++ l)) = _
    simp only [read_stream, he, ih hrest, Option.map_map]
    cases read_stream l <;> rfl

/-- A non-would-block outcome at the head of the sequence is classified and
returned after exactly one read. -/
theorem read_stream_cons_nonWB (o : ReadOutcome) (rest : List ReadOutcome)
    (h : o.isWouldBlock = false) :
    read_stream (o :: rest) = some (classifyOutcome o, 1) := by
  cases o with
  | ok n =>
    cases n with
    | zero => rfl
    | succ m => rfl
  | err e =>
    cases he : e.kind with
    | wouldBlock => simp [ReadOutcome.isWouldBlock, he] at h
    | other c => simp [read_stream, classifyOutcome, he]

/-- C1: read_stream never returns an `IoError` whose wrapped error has kind
`WouldBlock`, and a would-block outcome from the underlying read is absorbed
internally by retrying. -/
theorem c1_wouldblock_never_surfaced :
    (∀ (l : List ReadOutcome) (e : IoError) (k : Nat),
      read_stream l = some (Except.error (ReadStreamError.ioError e), k) →
        e.kind ≠ ErrorKind.wouldBlock) ∧
    (∀ (e : IoError) (rest : List ReadOutcome), e.kind = ErrorKind.wouldBlock →
      read_stream (ReadOutcome.err e :: rest) =
        (read_stream rest).map (fun p => (p.1, p.2 + 1))) := by
  constructor
  · intro l
    induction l with
    | nil => intro e k h; simp [read_stream] at h
    | cons x rest ih =>
      intro e k h
      cases x with
      | ok n =>
        cases n with
        | zero => simp [read_stream] at h
        | succ m => simp [read_stream] at h
      | err e0 =>
        cases he : e0.kind with
        | wouldBlock =>
          simp only [read_stream, he, Option.map_eq_some'] at h
          rcases h with ⟨⟨r, kk⟩, hp, hpe⟩
          simp only [Prod.mk.injEq] at hpe
          rcases hpe with ⟨hr, hk⟩
          exact ih e kk (by rw [hp, hr])
        | other c =>
          simp only [read_stream, he, Option.some.injEq, Prod.mk.injEq,
            Except.error.injEq, ReadStreamError.ioError.injEq] at h
          rcases h with ⟨he0, _⟩
          rw [← he0, he]
          intro hcontra
          cases hcontra
  · intro e rest he
    simp only [read_stream, he]

/-- C2: a successful underlying read of zero bytes makes read_stream return
`ConnectionClosed` at once: the read count stops at that read. -/
theorem c2_zero_read_is_connection_closed
    (pre rest : List ReadOutcome) (h : ∀ x ∈ pre, x.isWouldBlock = true) :
    read_stream (pre ++ ReadOutcome.ok 0 :: rest) =
      some (Except.error ReadStreamError.connectionClosed, pre.length + 1) := by
  rw [read_stream_skip pre _ h]
  simp [read_stream, Nat.add_comm]

/-- C3: a successful underlying read of `n > 0` bytes is returned as success
`n` at once; and every successful result lies between 1 and the buffer
capacity provided the underlying reads never exceed the capacity. -/
theorem c3_success_count_bounds :
    (∀ (pre : List ReadOutcome) (n : Nat) (rest : List ReadOutcome),
      (∀ x ∈ pre, x.isWouldBlock = true) → 0 < n →
      read_stream (pre ++ ReadOutcome.ok n :: rest) =
        some (Except.ok n, pre.length + 1)) ∧
    (∀ (l : List ReadOutcome) (cap n k : Nat),
      (∀ m, ReadOutcome.ok m ∈ l → m ≤ cap) →
      read_stream l = some (Except.ok n, k) → 1 ≤ n ∧ n ≤ cap) := by
  constructor
  · intro pre n rest hpre hn
    rw [read_stream_skip pre _ hpre]
    cases n with
    | zero => omega
    | succ m => simp [read_stream, Nat.add_comm]
  · intro l cap
    induction l with
    | nil => intro n k _ h; simp [read_stream] at h
    | cons x rest ih =>
      intro n k hcap h
      cases x with
      | ok m =>
        cases m with
        | zero => simp [read_stream] at h
        | succ j =>
          simp only [read_stream, Option.some.injEq, Prod.mk.injEq,
            Except.ok.injEq] at h
          rcases h with ⟨hn, _⟩
          have hj : j + 1 ≤ cap := hcap (j + 1) (List.mem_cons_self _ _)
          omega
      | err e =>
        cases he : e.kind with
        | wouldBlock =>
          simp only [read_stream, he, Option.map_eq_some'] at h
          rcases h with ⟨⟨r, kk⟩, hp, hpe⟩
          simp only [Prod.mk.injEq] at hpe
          rcases hpe with ⟨hr, _⟩
          exact ih n kk (fun m hm => hcap m (List.mem_cons_of_mem _ hm))
            (by rw [hp, hr])
        | other c => simp [read_stream, he] at h

/-- C4: a failed underlying read whose kind is not `WouldBlock` makes
read_stream return `IoError` wrapping that exact error at once: no further
read is attempted. -/
theorem c4_other_error_returned_exactly
    (pre : List ReadOutcome) (e : IoError) (rest : List ReadOutcome)
    (hpre : ∀ x ∈ pre, x.isWouldBlock = true)
    (he : e.kind ≠ ErrorKind.wouldBlock) :
    read_stream (pre ++ ReadOutcome.err e :: rest) =
      some (Except.error (ReadStreamError.ioError e), pre.length + 1) := by
  rw [read_stream_skip pre _ hpre]
  cases hk : e.kind with
  | wouldBlock => exact absurd hk he
  | other c => simp [read_stream, hk, Nat.add_comm]

/-- C5: when the outcome sequence contains a non-would-block outcome,
read_stream terminates, consumes the sequence exactly up to the first such
outcome, and returns its classification. -/
theorem c5_first_non_wouldblock_decides (l : List ReadOutcome)
    (hl : ∃ o ∈ l, o.isWouldBlock = false) :
    ∃ pre o rest, l = pre ++ o :: rest ∧ (∀ x ∈ pre, x.isWouldBlock = true) ∧
      o.isWouldBlock = false ∧
      read_stream l = some (classifyOutcome o, pre.length + 1) := by
  induction l with
  | nil =>
    rcases hl with ⟨o, ho, _⟩
    simp at ho
  | cons x rest ih =>
    by_cases hx : x.isWouldBlock = true
    · have hrest : ∃ o ∈ rest, o.isWouldBlock = false := by
        rcases hl with ⟨o, ho, hwo⟩
        rcases List.mem_cons.mp ho with hh | hh
        · rw [hh] at hwo; rw [hx] at hwo; cases hwo
        · exact ⟨o, hh, hwo⟩
      rcases ih hrest with ⟨pre, o, rest2, heq, hpre, ho, hread⟩
      refine ⟨x :: pre, o, rest2, by rw [heq, List.cons_append], ?_, ho, ?_⟩
      · intro y hy
        rcases List.mem_cons.mp hy with hh | hh
        · rw [hh]; exact hx
        · exact hpre y hh
      · rcases (isWouldBlock_iff x).mp hx with ⟨e, hxe, he⟩
        subst hxe
        show read_stream (ReadOutcome.err e :: rest) = _
        simp only [read_stream, he, hread, Option.map_some']
        rfl
    · have hx' : x.isWouldBlock = false := by
        cases hb : x.isWouldBlock
        · rfl
        · exact absurd hb hx
      exact ⟨[], x, rest, rfl, by simp, hx',
        read_stream_cons_nonWB x rest hx'⟩

/-- C10: read_stream performs no up-front buffer-size check — the zero-byte
read an empty buffer produces is attempted and classified as
`ConnectionClosed`; and when every successful read reports zero bytes (as a
zero-capacity buffer forces), no call ever returns success. -/
theorem c10_zero_capacity_degenerates :
    (∀ rest : List ReadOutcome,
      read_stream (ReadOutcome.ok 0 :: rest) =
        some (Except.error ReadStreamError.connectionClosed, 1)) ∧
    (∀ (l : List ReadOutcome) (r : Except ReadStreamError Nat) (k : Nat),
      (∀ m, ReadOutcome.ok m ∈ l → m = 0) →
      read_stream l = some (r, k) →
      r = Except.error ReadStreamError.connectionClosed ∨
        ∃ e, r = Except.error (ReadStreamError.ioError e)) := by
  constructor
  · intro rest; rfl
  · intro l
    induction l with
    | nil => intro r k _ h; simp [read_stream] at h
    | cons x rest ih =>
      intro r k hcap h
      cases x with
      | ok m =>
        have hm : m = 0 := hcap m (List.mem_cons_self _ _)
        subst hm
        simp only [read_stream, Option.some.injEq, Prod.mk.injEq] at h
        exact Or.inl h.1.symm
      | err e =>
        cases he : e.kind with
        | wouldBlock =>
          simp only [read_stream, he, Option.map_eq_some'] at h
          rcases h with ⟨⟨r0, kk⟩, hp, hpe⟩
          simp only [Prod.mk.injEq] at hpe
          rcases hpe with ⟨hr, _⟩
          exact hr ▸ ih r0 kk (fun m hm => hcap m (List.mem_cons_of_mem _ hm)) hp
        | other c =>
          simp only [read_stream, he, Option.some.injEq, Prod.mk.injEq] at h
          exact Or.inr ⟨e, h.1.symm⟩

/-- The characters that can appear in a rendered address: decimal digits,
lowercase hex letters, the colon and the dot. -/
def isIpChar (c : Char) : Bool :=
  c.isDigit || (97 ≤ c.toNat && c.toNat ≤ 102) || c == ':' || c == '.'

/-- Every digit character below base 16 is an address character. -/
theorem digitChar_isIpChar : ∀ d, d < 16 → isIpChar (Nat.digitChar d) = true := by
  decide

/-- `Nat.toDigitsCore` in a base between 2 and 16 only emits address
characters (given the accumulator already satisfies that). -/
theorem toDigitsCore_isIpChar (b : Nat) (hb1 : 2 ≤ b) (hb2 : b ≤ 16) :
    ∀ (fuel n : Nat) (acc : List Char), (∀ c ∈ acc, isIpChar c = true) →
      ∀ c ∈ Nat.toDigitsCore b fuel n acc, isIpChar c = true := by
  intro fuel
  induction fuel with
  | zero => intro n acc hacc c hc; exact hacc c hc
  | succ fuel ih =>
    intro n acc hacc c hc
    have hd : isIpChar (Nat.digitChar (n % b)) = true :=
      digitChar_isIpChar _ (Nat.lt_of_lt_of_le (Nat.mod_lt n (by omega)) hb2)
    have hacc' : ∀ x ∈ Nat.digitChar (n % b) :: acc, isIpChar x = true := by
      intro x hx
      rcases List.mem_cons.mp hx with hh | hh
      · rw [hh]; exact hd
      · exact hacc x hh
    rw [Nat.toDigitsCore] at hc
    by_cases h0 : n / b = 0
    · rw [if_pos h0] at hc
      exact hacc' c hc
    · rw [if_neg h0] at hc
      exact ih (n / b) _ hacc' c hc

/-- Decimal renderings only contain address characters. -/
theorem decChars_isIpChar (n : Nat) : ∀ c ∈ decChars n, isIpChar c = true :=
  toDigitsCore_isIpChar 10 (by omega) (by omega) (n + 1) n [] (by simp)

/-- Hex renderings only contain address characters. -/
theorem hexChars_isIpChar (n : Nat) : ∀ c ∈ hexChars n, isIpChar c = true :=
  toDigitsCore_isIpChar 16 (by omega) (by omega) (n + 1) n [] (by simp)

/-- `fmtSubslice` only emits address characters. -/
theorem fmtSubslice_isIpChar : ∀ l : List Nat, ∀ c ∈ fmtSubslice l, isIpChar c = true := by
  intro l
  induction l with
  | nil => intro c hc; simp [fmtSubslice] at hc
  | cons s tail ih =>
    cases tail with
    | nil => intro c hc; exact hexChars_isIpChar s c hc
    | cons t rest =>
      intro c hc
      simp only [fmtSubslice, List.mem_append, List.mem_cons] at hc
      rcases hc with hh | hh | hh
      · exact hexChars_isIpChar s c hh
      · rw [hh]; decide
      · exact ih c hh

/-- IPv4 renderings only contain address characters. -/
theorem ipv4Chars_isIpChar (ip : Ipv4Addr) : ∀ c ∈ ipv4Chars ip, isIpChar c = true := by
  intro c hc
  simp only [ipv4Chars, List.mem_append, List.mem_cons, or_assoc] at hc
  rcases hc with hh | hh | hh | hh | hh | hh | hh
  all_goals first
    | exact decChars_isIpChar _ c hh
    | (rw [hh]; decide)

/-- IPv6 renderings only contain address characters. -/
theorem ipv6Chars_isIpChar (ip : Ipv6Addr) : ∀ c ∈ ipv6Chars ip, isIpChar c = true := by
  intro c hc
  simp only [ipv6Chars] at hc
  split at hc
  · simp only [List.mem_cons, List.not_mem_nil, or_false] at hc
    rcases hc with hh | hh <;> (rw [hh]; decide)
  · split at hc
    · simp only [List.mem_cons, List.not_mem_nil, or_false] at hc
      rcases hc with hh | hh | hh <;> (rw [hh]; decide)
    · split at hc
      · simp only [List.mem_cons] at hc
        rcases hc with hh | hh | hh | hh | hh | hh | hh | hh
        all_goals first
          | exact ipv4Chars_isIpChar _ c hh
          | (rw [hh]; decide)
      · split at hc
        · simp only [List.mem_append, List.mem_cons] at hc
          rcases hc with hh | hh | hh | hh
          · exact fmtSubslice_isIpChar _ c hh
          · rw [hh]; decide
          · rw [hh]; decide
          · exact fmtSubslice_isIpChar _ c hh
        · exact fmtSubslice_isIpChar _ c hc

/-- IP renderings only contain address characters. -/
theorem ipChars_isIpChar (ip : IpAddr) : ∀ c ∈ ipChars ip, isIpChar c = true := by
  cases ip with
  | v4 a => exact ipv4Chars_isIpChar a
  | v6 a => exact ipv6Chars_isIpChar a

/-- Full address renderings only contain address characters. -/
theorem addressChars_isIpChar (a : Address) : ∀ c ∈ addressChars a, isIpChar c = true := by
  intro c hc
  simp only [addressChars, List.mem_append, List.mem_cons] at hc
  rcases hc with hh | hh | hh
  · exact ipChars_isIpChar a.ip c hh
  · rw [hh]; decide
  · exact decChars_isIpChar _ c hh

/-- C6: the Display formatting of an `Address` is the IP rendering, a single
colon, then the decimal port — no brackets ever appear — and for IP 192.0.2.1
with port 7828 it is exactly "192.0.2.1:7828". -/
theorem c6_display_single_colon_no_brackets :
    (∀ a : Address,
      displayAddress a = displayIp a.ip ++ ":" ++ Nat.repr a.port ∧
      '[' ∉ (displayAddress a).data ∧ ']' ∉ (displayAddress a).data) ∧
    displayAddress { ip := IpAddr.v4 ⟨192, 0, 2, 1⟩, port := 7828 } = "192.0.2.1:7828" := by
  constructor
  · intro a
    refine ⟨?_, ?_, ?_⟩
    · apply String.ext
      show addressChars a = (displayIp a.ip ++ ":" ++ Nat.repr a.port).data
      show addressChars a = ipChars a.ip ++ [':'] ++ decChars a.port
      simp [addressChars, List.append_assoc]
    · intro hmem
      exact absurd (addressChars_isIpChar a _ hmem) (by decide)
    · intro hmem
      exact absurd (addressChars_isIpChar a _ hmem) (by decide)
  · rfl

/-- C7: resolving an `Address` yields a socket address whose IP and port are
the address's own, for IPv4 and IPv6 alike. -/
theorem c7_resolve_preserves_ip_port :
    ∀ a : Address, ∃ s : SocketAddr,
      to_socket_addrs a = Except.ok (some s) ∧ s.ipOf = a.ip ∧ s.portOf = a.port := by
  intro a
  obtain ⟨ip, port⟩ := a
  cases ip with
  | v4 v => exact ⟨SocketAddr.v4 v port, rfl, rfl, rfl⟩
  | v6 v => exact ⟨SocketAddr.v6 v port 0 0, rfl, rfl, rfl⟩

/-- C8: resolving an `Address` yields exactly one socket address: the result
iterator is non-empty, and it holds exactly one element. -/
theorem c8_resolve_exactly_one :
    ∀ a : Address, (∃ s, to_socket_addrs a = Except.ok (some s)) ∧
      ∀ o, to_socket_addrs a = Except.ok o → o.toList.length = 1 := by
  intro a
  obtain ⟨ip, port⟩ := a
  cases ip with
  | v4 v =>
    refine ⟨⟨SocketAddr.v4 v port, rfl⟩, ?_⟩
    intro o ho
    simp only [to_socket_addrs, Except.ok.injEq] at ho
    rw [← ho]
    rfl
  | v6 v =>
    refine ⟨⟨SocketAddr.v6 v port 0 0, rfl⟩, ?_⟩
    intro o ho
    simp only [to_socket_addrs, Except.ok.injEq] at ho
    rw [← ho]
    rfl

/-- C9: formatting and resolution are deterministic — equal addresses render
to equal strings and resolve to equal socket addresses. -/
theorem c9_format_resolve_deterministic :
    ∀ a b : Address, a = b →
      displayAddress a = displayAddress b ∧ to_socket_addrs a = to_socket_addrs b := by
  intro a b h
  rw [h]
  exact ⟨rfl, rfl⟩

/-- Witness for C1 at concrete inputs: a returned IoError has a
non-would-block kind, and a leading would-block outcome is absorbed. -/
theorem c1_witness :
    (IoError.mk (ErrorKind.other 104) "connection reset").kind ≠ ErrorKind.wouldBlock ∧
    read_stream [ReadOutcome.err ⟨ErrorKind.wouldBlock, "would block"⟩, ReadOutcome.ok 3] =
      (read_stream [ReadOutcome.ok 3]).map (fun p => (p.1, p.2 + 1)) :=
  ⟨c1_wouldblock_never_surfaced.1
      [ReadOutcome.err ⟨ErrorKind.other 104, "connection reset"⟩] _ 1 rfl,
    c1_wouldblock_never_surfaced.2 ⟨ErrorKind.wouldBlock, "would block"⟩
      [ReadOutcome.ok 3] rfl⟩

/-- Witness for C2 at a concrete input: one would-block retry, then a
zero-byte read, gives `ConnectionClosed` after two reads. -/
theorem c2_witness :
    read_stream [ReadOutcome.err ⟨ErrorKind.wouldBlock, "would block"⟩, ReadOutcome.ok 0] =
      some (Except.error ReadStreamError.connectionClosed, 2) :=
  c2_zero_read_is_connection_closed
    [ReadOutcome.err ⟨ErrorKind.wouldBlock, "would block"⟩] [] (by decide)

/-- Witness for C3 at concrete inputs: a 5-byte read after one retry returns
success 5 in two reads, and the count is within a capacity of 8. -/
theorem c3_witness :
    read_stream [ReadOutcome.err ⟨ErrorKind.wouldBlock, "would block"⟩, ReadOutcome.ok 5] =
      some (Except.ok 5, 2) ∧ (1 ≤ 5 ∧ 5 ≤ 8) :=
  ⟨c3_success_count_bounds.1 [ReadOutcome.err ⟨ErrorKind.wouldBlock, "would block"⟩] 5 []
      (by decide) (by decide),
    c3_success_count_bounds.2 [ReadOutcome.ok 5] 8 5 1
      (fun m hm => by
        simp only [List.mem_singleton, ReadOutcome.ok.injEq] at hm
        omega)
      rfl⟩

/-- Witness for C4 at a concrete input: a connection-reset error after one
retry is returned wrapped, unmodified, after two reads. -/
theorem c4_witness :
    read_stream [ReadOutcome.err ⟨ErrorKind.wouldBlock, "would block"⟩,
        ReadOutcome.err ⟨ErrorKind.other 104, "connection reset"⟩] =
      some (Except.error (ReadStreamError.ioError ⟨ErrorKind.other 104, "connection reset"⟩), 2) :=
  c4_other_error_returned_exactly [ReadOutcome.err ⟨ErrorKind.wouldBlock, "would block"⟩]
    ⟨ErrorKind.other 104, "connection reset"⟩ [] (by decide) (by decide)

/-- Witness for C5 at a concrete sequence containing a non-would-block
outcome. -/
theorem c5_witness :
    ∃ pre o rest,
      [ReadOutcome.err ⟨ErrorKind.wouldBlock, "would block"⟩, ReadOutcome.ok 7] =
        pre ++ o :: rest ∧
      (∀ x ∈ pre, x.isWouldBlock = true) ∧ o.isWouldBlock = false ∧
      read_stream [ReadOutcome.err ⟨ErrorKind.wouldBlock, "would block"⟩, ReadOutcome.ok 7] =
        some (classifyOutcome o, pre.length + 1) :=
  c5_first_non_wouldblock_decides _ ⟨ReadOutcome.ok 7, by decide, by decide⟩

/-- Witness for C10 at a concrete input: the zero-byte read of an empty
buffer is attempted and classified as `ConnectionClosed`. -/
theorem c10_witness :
    read_stream [ReadOutcome.ok 0] =
      some (Except.error ReadStreamError.connectionClosed, 1) ∧
    (Except.error ReadStreamError.connectionClosed =
        (Except.error ReadStreamError.connectionClosed :
          Except ReadStreamError Nat) ∨
      ∃ e, (Except.error ReadStreamError.connectionClosed :
          Except ReadStreamError Nat) = Except.error (ReadStreamError.ioError e)) :=
  ⟨c10_zero_capacity_degenerates.1 [],
    c10_zero_capacity_degenerates.2 [ReadOutcome.ok 0] _ 1
      (fun m hm => by
        simp only [List.mem_singleton, ReadOutcome.ok.injEq] at hm
        exact hm)
      rfl⟩

/-- Witness for C6 at a concrete address. -/
theorem c6_witness :
    displayAddress { ip := IpAddr.v4 ⟨192, 0, 2, 1⟩, port := 7828 } =
      displayIp (IpAddr.v4 ⟨192, 0, 2, 1⟩) ++ ":" ++ Nat.repr 7828 :=
  (c6_display_single_colon_no_brackets.1 { ip := IpAddr.v4 ⟨192, 0, 2, 1⟩, port := 7828 }).1

/-- Witness for C8 at a concrete address: the iterator holds exactly one
element. -/
theorem c8_witness :
    (some (SocketAddr.v4 ⟨127, 0, 0, 1⟩ 7828)).toList.length = 1 :=
  (c8_resolve_exactly_one { ip := IpAddr.v4 ⟨127, 0, 0, 1⟩, port := 7828 }).2
    (some (SocketAddr.v4 ⟨127, 0, 0, 1⟩ 7828)) rfl

/-- Witness for C9 at a concrete address. -/
theorem c9_witness :
    displayAddress { ip := IpAddr.v4 ⟨127, 0, 0, 1⟩, port := 7828 } =
      displayAddress { ip := IpAddr.v4 ⟨127, 0, 0, 1⟩, port := 7828 } ∧
    to_socket_addrs { ip := IpAddr.v4 ⟨127, 0, 0, 1⟩, port := 7828 } =
      to_socket_addrs { ip := IpAddr.v4 ⟨127, 0, 0, 1⟩, port := 7828 } :=
  c9_format_resolve_deterministic _ _ rfl

/-- Witness for C7 at a concrete address. -/
theorem c7_witness :
    ∃ s : SocketAddr,
      to_socket_addrs { ip := IpAddr.v4 ⟨127, 0, 0, 1⟩, port := 7828 } =
        Except.ok (some s) ∧
      s.ipOf = IpAddr.v4 ⟨127, 0, 0, 1⟩ ∧ s.portOf = 7828 :=
  c7_resolve_preserves_ip_port { ip := IpAddr.v4 ⟨127, 0, 0, 1⟩, port := 7828 }

end FileYeet
